import Mathlib

/-!
Verification development for the task-api repository: a CRUD service for
"task" records (Pydantic validation schemas, a `TaskService` over a
relational store, and the `Task` entity).

The embedding below translates the Python sources:
- `src/schemas/task.py` (TaskCreate / TaskUpdate validation),
- `src/models/task.py` (the Task entity and its column nullability),
- `src/services/task_service.py` (create/get/list/update/delete),
- `src/exceptions.py` (TaskNotFoundError).

Modelling conventions:
- Python `str.strip()` is `pyStrip`: drop whitespace characters from both
  ends of the character list.
- Pydantic v2 semantics: `Field(min_length=…, max_length=…)` constraints
  run on the raw input value BEFORE a mode-"after" `@field_validator`,
  so the length checks see the untrimmed title and the validator then
  trims it.  `model_dump(exclude_unset=True)` keeps exactly the fields
  that the caller supplied, including fields supplied explicitly as
  `None`; an update field is therefore `Option (Option _)`: the outer
  layer is "supplied or not", the inner one is the nullable value.
  Extra keys in a create payload are ignored (default `extra="ignore"`).
- Ids: `uuid4` freshness is modelled by a counter `nextId`; timestamps
  (`datetime.utcnow()`) by `Nat` clock readings passed in per call.
  `Task` construction invokes TWO independent `default_factory=utcnow`
  reads — one for `created_at`, one for `updated_at` — so `create_task`
  takes two clock readings; `update_task` calls `utcnow()` once and
  takes one.
- The store is a list of rows in insertion order.  `nullable=False`
  columns (`title`, `is_completed`) are enforced by the database at
  commit time: an UPDATE writing NULL into them fails with an integrity
  error and leaves the store unchanged (the transaction rolls back).
-/

namespace TaskAPI

/-- Python `str.strip()` on a character list: remove leading and trailing
whitespace characters. -/
def stripList (l : List Char) : List Char :=
  ((l.dropWhile Char.isWhitespace).reverse.dropWhile Char.isWhitespace).reverse

/-- Python `str.strip()` on a string (as used by `v.strip()` in the
`title_not_whitespace` validators of `src/schemas/task.py`). -/
def pyStrip (s : String) : String :=
  ⟨stripList s.data⟩

/-- The shared `title_not_whitespace` field validator body: strip the
value, reject it when the stripped value is empty, otherwise return the
stripped value (which is what gets stored). -/
def title_not_whitespace (v : String) : Except String String :=
  let stripped := pyStrip v
  if stripped = "" then .error "Title cannot be empty or whitespace only"
  else .ok stripped

/-- Validated create input (`TaskCreate` in `src/schemas/task.py`):
`title: str = Field(min_length=1, max_length=200)`,
`description: str | None = None`. -/
structure TaskCreate where
  title : String
  description : Option String
deriving Repr, DecidableEq

/-- Pydantic validation of a `TaskCreate`: the `Field` length constraints
check the raw title, then the mode-"after" `title_not_whitespace`
validator strips it and rejects whitespace-only titles. -/
def TaskCreate.validate (title : String) (description : Option String) :
    Except String TaskCreate :=
  if title.length < 1 then .error "String should have at least 1 character"
  else if 200 < title.length then .error "String should have at most 200 characters"
  else
    match title_not_whitespace title with
    | .error e => .error e
    | .ok t => .ok ⟨t, description⟩

/-- Validated update input after `model_dump(exclude_unset=True)`
(`TaskUpdate` in `src/schemas/task.py`): every field is independently
optional, and a supplied field may itself carry `None` (the schema types
are `str | None`, `str | None`, `bool | None`). -/
structure TaskUpdate where
  title : Option (Option String)
  description : Option (Option String)
  is_completed : Option (Option Bool)
deriving Repr, DecidableEq

/-- Validation of the `title` field of `TaskUpdate`: absent or `None`
passes untouched; a supplied string goes through the `Field` length
constraints and then the stripping validator, as in create. -/
def validateUpdateTitle : Option (Option String) → Except String (Option (Option String))
  | none => .ok none
  | some none => .ok (some none)
  | some (some v) =>
    if v.length < 1 then .error "String should have at least 1 character"
    else if 200 < v.length then .error "String should have at most 200 characters"
    else
      match title_not_whitespace v with
      | .error e => .error e
      | .ok t => .ok (some (some t))

/-- Pydantic validation of a `TaskUpdate`: only `title` has constraints;
`description` and `is_completed` pass through. -/
def TaskUpdate.validate (title : Option (Option String))
    (description : Option (Option String)) (is_completed : Option (Option Bool)) :
    Except String TaskUpdate :=
  match validateUpdateTitle title with
  | .error e => .error e
  | .ok t => .ok ⟨t, description, is_completed⟩

/-- The persisted `Task` entity (`src/models/task.py`).  `title` and
`is_completed` are `nullable=False` columns, `description` is nullable. -/
structure Task where
  id : Nat
  title : String
  description : Option String
  is_completed : Bool
  created_at : Nat
  updated_at : Nat
deriving Repr, DecidableEq

/-- Service-level errors: `TaskNotFoundError(task_id)` from
`src/exceptions.py` carries the requested id; `integrityError` models the
database rejecting a NULL write into a `nullable=False` column at commit. -/
inductive ServiceError where
  | taskNotFound (task_id : Nat)
  | integrityError
deriving Repr, DecidableEq

/-- Database state: persisted rows in insertion order, the id generator,
nothing else. -/
structure DB where
  tasks : List Task
  nextId : Nat
deriving Repr, DecidableEq

/-- The empty store. -/
def DB.empty : DB := ⟨[], 0⟩

/-- `TaskService.create_task`: build a `Task` with a fresh id,
title/description from the validated input and `is_completed=False`,
persist it, return it.  `created_at` and `updated_at` come from two
separate `default_factory=datetime.utcnow` invocations made during
`Task(...)` construction (models/task.py), so each receives its own
clock reading; the code never forces them equal. -/
def create_task (db : DB) (task_data : TaskCreate)
    (now_created now_updated : Nat) : Task × DB :=
  let task : Task :=
    { id := db.nextId
      title := task_data.title
      description := task_data.description
      is_completed := false
      created_at := now_created
      updated_at := now_updated }
  (task, { tasks := db.tasks ++ [task], nextId := db.nextId + 1 })

/-- `TaskService.get_task`: look the id up; raise
`TaskNotFoundError(task_id)` when no row matches. -/
def get_task (db : DB) (task_id : Nat) : Except ServiceError Task :=
  match db.tasks.find? (fun t => t.id == task_id) with
  | some task => .ok task
  | none => .error (.taskNotFound task_id)

/-- `TaskService.list_tasks`: all rows ordered by `created_at`
descending (`SELECT … ORDER BY created_at DESC`). -/
def list_tasks (db : DB) : List Task :=
  db.tasks.mergeSort (fun a b => b.created_at ≤ a.created_at)

/-- `TaskService.update_task`: `get_task` first (propagating not-found),
then apply exactly the supplied fields to the row, set
`updated_at = utcnow()` unconditionally, and commit.  The commit enforces
the `nullable=False` columns: writing NULL into `title` or `is_completed`
fails with an integrity error and the transaction rolls back. -/
def update_task (db : DB) (task_id : Nat) (task_data : TaskUpdate) (now : Nat) :
    Except ServiceError Task × DB :=
  match get_task db task_id with
  | .error e => (.error e, db)
  | .ok task =>
    let newTitle : Option String :=
      match task_data.title with
      | none => some task.title
      | some v => v
    let newDescription : Option String :=
      match task_data.description with
      | none => task.description
      | some v => v
    let newCompleted : Option Bool :=
      match task_data.is_completed with
      | none => some task.is_completed
      | some v => v
    match newTitle, newCompleted with
    | some ti, some co =>
      let task' : Task :=
        { id := task.id
          title := ti
          description := newDescription
          is_completed := co
          created_at := task.created_at
          updated_at := now }
      (.ok task', { db with tasks := db.tasks.map (fun x => if x.id == task_id then task' else x) })
    | _, _ => (.error .integrityError, db)

/-- `TaskService.delete_task`: `get_task` first (propagating not-found),
then remove the row and return nothing. -/
def delete_task (db : DB) (task_id : Nat) : Except ServiceError Unit × DB :=
  match get_task db task_id with
  | .error e => (.error e, db)
  | .ok _ => (.ok (), { db with tasks := db.tasks.filter (fun t => t.id != task_id) })

/-- A raw JSON create payload: the body may carry any of these keys.
Pydantic's default `extra="ignore"` makes `TaskCreate` read only `title`
and `description`; `is_completed`, `id` and the timestamps are ignored. -/
structure CreatePayload where
  title : Option String
  description : Option String
  is_completed : Option Bool
  id : Option Nat
  created_at : Option Nat
  updated_at : Option Nat
deriving Repr, DecidableEq

/-- Parsing a create payload into a `TaskCreate`: `title` is required
(no default), `description` defaults to `None`, every other key is
ignored. -/
def parse_TaskCreate (p : CreatePayload) : Except String TaskCreate :=
  match p.title with
  | none => .error "Field required"
  | some t => TaskCreate.validate t p.description

/-- Well-formedness of the id generator: every persisted id was issued
before `nextId` (uuid4 never collides with a fresh id). -/
def DB.wf (db : DB) : Prop :=
  ∀ t ∈ db.tasks, t.id < db.nextId

/-- A string is non-blank: non-empty and not whitespace-only. -/
def nonBlank (s : String) : Prop :=
  s ≠ "" ∧ ∃ c ∈ s.data, c.isWhitespace = false

/-- The states reachable from the empty store by service operations whose
inputs passed the validation layer. -/
inductive Reachable : DB → Prop where
  | init : Reachable DB.empty
  | create (db : DB) (title : String) (desc : Option String) (data : TaskCreate)
      (now_created now_updated : Nat) :
      Reachable db → TaskCreate.validate title desc = .ok data →
      Reachable (create_task db data now_created now_updated).2
  | update (db : DB) (id : Nat) (tit des : Option (Option String))
      (comp : Option (Option Bool)) (u : TaskUpdate) (now : Nat) :
      Reachable db → TaskUpdate.validate tit des comp = .ok u →
      Reachable (update_task db id u now).2
  | delete (db : DB) (id : Nat) :
      Reachable db → Reachable (delete_task db id).2

deriving instance DecidableEq for Except

/-- A nonempty stripped character list contains a non-whitespace
character (its first character survived `dropWhile isWhitespace`). -/
theorem stripList_has_nonWhitespace {l : List Char} (h : stripList l ≠ []) :
    ∃ c ∈ stripList l, c.isWhitespace = false := by
  have hm : (l.dropWhile Char.isWhitespace).reverse.dropWhile Char.isWhitespace ≠ [] := by
    intro he
    apply h
    simp [stripList, he]
  refine ⟨((l.dropWhile Char.isWhitespace).reverse.dropWhile Char.isWhitespace).head hm, ?_, ?_⟩
  · simp only [stripList, List.mem_reverse]
    exact List.head_mem hm
  · exact List.head_dropWhile_not _ _ hm

/-- The stripping validator only succeeds with the stripped title, which
is then non-blank. -/
theorem title_not_whitespace_ok {v s : String}
    (h : title_not_whitespace v = .ok s) : s = pyStrip v ∧ nonBlank s := by
  unfold title_not_whitespace at h
  by_cases hc : pyStrip v = ""
  · simp [hc] at h
  · simp only [hc, if_false] at h
    cases h
    refine ⟨rfl, hc, ?_⟩
    have hne : stripList v.data ≠ [] := by
      intro he
      apply hc
      show (⟨stripList v.data⟩ : String) = ""
      rw [he]
    exact stripList_has_nonWhitespace hne

/-- A validated `TaskCreate` stores the stripped title and the given
description, and the stripped title is non-blank. -/
theorem TaskCreate.validate_ok {title : String} {desc : Option String}
    {data : TaskCreate} (h : TaskCreate.validate title desc = .ok data) :
    data.title = pyStrip title ∧ data.description = desc ∧ nonBlank data.title := by
  unfold TaskCreate.validate at h
  by_cases h1 : title.length < 1
  · simp [h1] at h
  · simp only [h1, if_false] at h
    by_cases h2 : 200 < title.length
    · simp [h2] at h
    · simp only [h2, if_false] at h
      cases he : title_not_whitespace title with
      | error e => rw [he] at h; cases h
      | ok s =>
        rw [he] at h
        cases h
        obtain ⟨hs, hnb⟩ := title_not_whitespace_ok he
        exact ⟨hs, rfl, hs ▸ hnb⟩

/-- A successful lookup returns a stored row carrying the requested id. -/
theorem get_task_ok {db : DB} {id : Nat} {task : Task}
    (h : get_task db id = .ok task) : task ∈ db.tasks ∧ task.id = id := by
  unfold get_task at h
  cases hf : db.tasks.find? (fun t => t.id == id) with
  | none => rw [hf] at h; cases h
  | some x =>
    rw [hf] at h
    cases h
    exact ⟨List.mem_of_find?_eq_some hf, by simpa using List.find?_some hf⟩

/-- When no stored row carries the requested id, all three id-taking
operations fail with `TaskNotFoundError id` and leave the store as is. -/
theorem ops_not_found {db : DB} {id : Nat} (h : ∀ t ∈ db.tasks, t.id ≠ id)
    (u : TaskUpdate) (now : Nat) :
    get_task db id = .error (.taskNotFound id) ∧
    update_task db id u now = (.error (.taskNotFound id), db) ∧
    delete_task db id = (.error (.taskNotFound id), db) := by
  have hf : db.tasks.find? (fun t => t.id == id) = none := by
    rw [List.find?_eq_none]
    intro x hx
    simp [h x hx]
  have hg : get_task db id = .error (.taskNotFound id) := by
    unfold get_task
    rw [hf]
  refine ⟨hg, ?_, ?_⟩
  · unfold update_task
    rw [hg]
  · unfold delete_task
    rw [hg]

/-- A validated update that supplies a title string carries the stripped,
non-blank form of that string. -/
theorem TaskUpdate.validate_ok_title {tit des : Option (Option String)}
    {comp : Option (Option Bool)} {u : TaskUpdate}
    (h : TaskUpdate.validate tit des comp = .ok u) :
    ∀ v, u.title = some (some v) → nonBlank v := by
  unfold TaskUpdate.validate at h
  cases hvt : validateUpdateTitle tit with
  | error e => rw [hvt] at h; cases h
  | ok tv =>
    rw [hvt] at h
    cases h
    intro v hv
    cases tit with
    | none =>
      unfold validateUpdateTitle at hvt
      cases hvt
      cases hv
    | some o =>
      cases o with
      | none =>
        unfold validateUpdateTitle at hvt
        cases hvt
        cases hv
      | some raw =>
        simp only [validateUpdateTitle] at hvt
        by_cases h1 : raw.length < 1
        · rw [if_pos h1] at hvt; cases hvt
        · rw [if_neg h1] at hvt
          by_cases h2 : 200 < raw.length
          · rw [if_pos h2] at hvt; cases hvt
          · rw [if_neg h2] at hvt
            cases he : title_not_whitespace raw with
            | error e => rw [he] at hvt; cases hvt
            | ok s =>
              rw [he] at hvt
              cases hvt
              cases hv
              exact (title_not_whitespace_ok he).2

set_option maxRecDepth 10000 in
/-- C1 (counterexample): the claim says validation succeeds exactly when
the trimmed title has 1 to 200 characters, but for the 201-character
title `"a"*200 ++ " "` — whose trimmed form has exactly 200 characters —
validation fails: the Pydantic `max_length=200` constraint runs on the
raw title before the trimming validator. -/
theorem C1_counterexample :
    1 ≤ (pyStrip (String.mk (List.replicate 200 'a' ++ [' ']))).length ∧
    (pyStrip (String.mk (List.replicate 200 'a' ++ [' ']))).length ≤ 200 ∧
    (TaskCreate.validate (String.mk (List.replicate 200 'a' ++ [' '])) none).isOk = false := by
  refine ⟨?_, ?_, ?_⟩ <;> decide

/-- C1 (amended): create validation succeeds exactly when the RAW title
has 1 to 200 characters and is not whitespace-only; on success the
stored title is the trimmed one.  In particular `"a"*201` is rejected,
`"a"*200` accepted, and empty or whitespace-only titles are rejected. -/
theorem C1_create_title_validation (title : String) (desc : Option String) :
    ((TaskCreate.validate title desc).isOk = true ↔
      1 ≤ title.length ∧ title.length ≤ 200 ∧ pyStrip title ≠ "") ∧
    (∀ data, TaskCreate.validate title desc = .ok data →
      data.title = pyStrip title ∧ data.description = desc) := by
  constructor
  · unfold TaskCreate.validate title_not_whitespace
    by_cases h1 : title.length < 1
    · simp [h1, Except.isOk, Except.toBool]
    · by_cases h2 : 200 < title.length
      · simp [h1, h2, Except.isOk, Except.toBool]
      · by_cases h3 : pyStrip title = ""
        · simp [h1, h2, h3, Except.isOk, Except.toBool]
        · simp [h1, h2, h3, Except.isOk, Except.toBool]
          omega
  · intro data h
    exact ⟨(TaskCreate.validate_ok h).1, (TaskCreate.validate_ok h).2.1⟩

/-- C1 witness: `"  Padded  "` validates and stores as `"Padded"`. -/
theorem C1_create_title_validation_witness :
    (TaskCreate.validate "  Padded  " none).isOk = true ∧
    ("Padded" : String) = pyStrip "  Padded  " := by
  refine ⟨(C1_create_title_validation "  Padded  " none).1.mpr
    ⟨by decide, by decide, by decide⟩, ?_⟩
  exact ((C1_create_title_validation "  Padded  " none).2 ⟨"Padded", none⟩ (by decide)).1

/-- C2 (counterexample): the claim asserts `created_at = updated_at` for
every valid create input, but the two timestamps come from two separate
`datetime.utcnow` default-factory invocations; when the clock advances
between them (here reads 0 and 1), the created record has
`created_at ≠ updated_at` even though the input is valid. -/
theorem C2_counterexample :
    TaskCreate.validate "Task" none = .ok ⟨"Task", none⟩ ∧
    (create_task DB.empty ⟨"Task", none⟩ 0 1).1.created_at ≠
      (create_task DB.empty ⟨"Task", none⟩ 0 1).1.updated_at :=
  ⟨by decide, by decide⟩

/-- C2 (amended): for every valid create input the returned record has
`is_completed = false`; `created_at = updated_at` holds exactly when the
two `utcnow()` reads taken by the default factories return the same
instant, and under monotone time `created_at ≤ updated_at` always. -/
theorem C2_create_timestamps_and_flag (db : DB) (title : String)
    (desc : Option String) (data : TaskCreate) (now_created now_updated : Nat)
    (_h : TaskCreate.validate title desc = .ok data) :
    (create_task db data now_created now_updated).1.is_completed = false ∧
    ((create_task db data now_created now_updated).1.created_at =
        (create_task db data now_created now_updated).1.updated_at ↔
      now_created = now_updated) ∧
    (now_created ≤ now_updated →
      (create_task db data now_created now_updated).1.created_at ≤
        (create_task db data now_created now_updated).1.updated_at) :=
  ⟨rfl, Iff.rfl, fun h => h⟩

/-- C2 witness at a concrete store and input with coinciding reads. -/
theorem C2_create_timestamps_and_flag_witness :
    (create_task DB.empty ⟨"Task", none⟩ 7 7).1.is_completed = false ∧
    ((create_task DB.empty ⟨"Task", none⟩ 7 7).1.created_at =
        (create_task DB.empty ⟨"Task", none⟩ 7 7).1.updated_at ↔ (7 : Nat) = 7) ∧
    ((7 : Nat) ≤ 7 →
      (create_task DB.empty ⟨"Task", none⟩ 7 7).1.created_at ≤
        (create_task DB.empty ⟨"Task", none⟩ 7 7).1.updated_at) :=
  C2_create_timestamps_and_flag DB.empty "Task" none ⟨"Task", none⟩ 7 7 (by decide)

/-- C6: for every id with no corresponding record, get, update and delete
each fail with `TaskNotFoundError` carrying that exact id, and update and
delete leave the store untouched. -/
theorem C6_not_found_semantics (db : DB) (id : Nat) (u : TaskUpdate) (now : Nat)
    (h : ∀ t ∈ db.tasks, t.id ≠ id) :
    get_task db id = .error (.taskNotFound id) ∧
    update_task db id u now = (.error (.taskNotFound id), db) ∧
    delete_task db id = (.error (.taskNotFound id), db) :=
  ops_not_found h u now

/-- C6 witness: the empty store has no record with id 5. -/
theorem C6_not_found_semantics_witness :
    get_task DB.empty 5 = .error (.taskNotFound 5) ∧
    update_task DB.empty 5 ⟨none, none, none⟩ 3 = (.error (.taskNotFound 5), DB.empty) ∧
    delete_task DB.empty 5 = (.error (.taskNotFound 5), DB.empty) :=
  C6_not_found_semantics DB.empty 5 ⟨none, none, none⟩ 3
    (by intro t ht; simp [DB.empty] at ht)

/-- C8: deleting an existing record succeeds returning nothing, removes
every row with that id from persistence, and a second delete of the same
id fails with `TaskNotFoundError` — delete is not idempotent. -/
theorem C8_delete_not_idempotent (db : DB) (id : Nat) (t : Task)
    (hget : get_task db id = .ok t) :
    (delete_task db id).1 = .ok () ∧
    (∀ x ∈ (delete_task db id).2.tasks, x.id ≠ id) ∧
    delete_task (delete_task db id).2 id =
      (.error (.taskNotFound id), (delete_task db id).2) := by
  have hd : delete_task db id =
      (.ok (), { db with tasks := db.tasks.filter (fun x => x.id != id) }) := by
    unfold delete_task
    rw [hget]
  have hmem : ∀ x ∈ (delete_task db id).2.tasks, x.id ≠ id := by
    rw [hd]
    intro x hx
    have := List.of_mem_filter hx
    simpa using this
  exact ⟨by rw [hd], hmem, (ops_not_found hmem ⟨none, none, none⟩ 0).2.2⟩

/-- C8 witness: create one record in the empty store, delete it twice. -/
theorem C8_delete_not_idempotent_witness :
    (delete_task (create_task DB.empty ⟨"T", none⟩ 0 0).2 0).1 = .ok () ∧
    (∀ x ∈ (delete_task (create_task DB.empty ⟨"T", none⟩ 0 0).2 0).2.tasks, x.id ≠ 0) ∧
    delete_task (delete_task (create_task DB.empty ⟨"T", none⟩ 0 0).2 0).2 0 =
      (.error (.taskNotFound 0), (delete_task (create_task DB.empty ⟨"T", none⟩ 0 0).2 0).2) :=
  C8_delete_not_idempotent (create_task DB.empty ⟨"T", none⟩ 0 0).2 0
    ⟨0, "T", none, false, 0, 0⟩ (by decide)

/-- C9: in a well-formed store, getting the id of a freshly created
record (no intervening writes) returns exactly the create result. -/
theorem C9_create_get_roundtrip (db : DB) (data : TaskCreate)
    (now_created now_updated : Nat) (hwf : db.wf) :
    get_task (create_task db data now_created now_updated).2
        (create_task db data now_created now_updated).1.id =
      .ok (create_task db data now_created now_updated).1 := by
  unfold get_task create_task
  simp only []
  rw [List.find?_append]
  have h1 : db.tasks.find? (fun t => t.id == db.nextId) = none := by
    rw [List.find?_eq_none]
    intro x hx
    have := hwf x hx
    simp only [beq_iff_eq]
    omega
  rw [h1]
  simp

/-- C9 witness: round-trip through a store already holding one record. -/
theorem C9_create_get_roundtrip_witness :
    get_task (create_task ⟨[⟨0, "A", none, false, 0, 0⟩], 1⟩ ⟨"B", none⟩ 4 5).2
        (create_task ⟨[⟨0, "A", none, false, 0, 0⟩], 1⟩ ⟨"B", none⟩ 4 5).1.id =
      .ok (create_task ⟨[⟨0, "A", none, false, 0, 0⟩], 1⟩ ⟨"B", none⟩ 4 5).1 :=
  C9_create_get_roundtrip ⟨[⟨0, "A", none, false, 0, 0⟩], 1⟩ ⟨"B", none⟩ 4 5
    (by intro t ht; simp at ht; simp [ht])

/-- C7: listing returns a permutation of all persisted records (so
exactly N records after creating N), ordered by `created_at` descending,
and the empty store yields the empty sequence, not an error. -/
theorem C7_list_all_ordered (db : DB) :
    List.Perm (list_tasks db) db.tasks ∧
    (list_tasks db).length = db.tasks.length ∧
    List.Pairwise (fun a b : Task => b.created_at ≤ a.created_at) (list_tasks db) ∧
    (db.tasks = [] → list_tasks db = []) := by
  have hperm := List.mergeSort_perm db.tasks (fun a b => b.created_at ≤ a.created_at)
  refine ⟨hperm, hperm.length_eq, ?_, ?_⟩
  · have hs := @List.sorted_mergeSort Task
      (fun a b : Task => decide (b.created_at ≤ a.created_at))
      (by intro a b c hab hbc; simp at *; omega)
      (by intro a b; simp; omega) db.tasks
    simpa [list_tasks] using hs
  · intro h
    simp [list_tasks, h]

/-- C7 witness: the empty store lists to the empty sequence. -/
theorem C7_list_all_ordered_witness : list_tasks DB.empty = [] :=
  (C7_list_all_ordered DB.empty).2.2.2 rfl

/-- C4: a successful update applies exactly the supplied fields, keeps
`id`, `created_at` and every unsupplied field unchanged, and sets
`updated_at` to the current time unconditionally. -/
theorem C4_update_frame (db : DB) (id : Nat) (u : TaskUpdate) (now : Nat)
    (t t' : Task) (db' : DB)
    (hget : get_task db id = .ok t)
    (hupd : update_task db id u now = (.ok t', db')) :
    t'.id = t.id ∧ t'.created_at = t.created_at ∧ t'.updated_at = now ∧
    (u.title = none → t'.title = t.title) ∧
    (∀ v, u.title = some (some v) → t'.title = v) ∧
    (u.description = none → t'.description = t.description) ∧
    (∀ d, u.description = some d → t'.description = d) ∧
    (u.is_completed = none → t'.is_completed = t.is_completed) ∧
    (∀ b, u.is_completed = some (some b) → t'.is_completed = b) := by
  unfold update_task at hupd
  rw [hget] at hupd
  rcases u with ⟨ut, ud, uc⟩
  rcases ut with _ | (_ | v) <;> rcases uc with _ | (_ | b) <;>
    rcases ud with _ | d <;> simp_all <;>
      (obtain ⟨h1, h2⟩ := hupd; subst h1; simp)

/-- C4 witness: updating only `is_completed` on a one-record store sets
`updated_at` and leaves the title alone. -/
theorem C4_update_frame_witness :
    (⟨0, "Orig", some "D", true, 0, 5⟩ : Task).updated_at = 5 ∧
    (⟨0, "Orig", some "D", true, 0, 5⟩ : Task).title =
      (⟨0, "Orig", some "D", false, 0, 0⟩ : Task).title := by
  have h := C4_update_frame ⟨[⟨0, "Orig", some "D", false, 0, 0⟩], 1⟩ 0
    ⟨none, none, some (some true)⟩ 5
    ⟨0, "Orig", some "D", false, 0, 0⟩ ⟨0, "Orig", some "D", true, 0, 5⟩
    ⟨[⟨0, "Orig", some "D", true, 0, 5⟩], 1⟩ (by decide) (by decide)
  exact ⟨h.2.2.1, h.2.2.2.1 rfl⟩

/-- C5: on a record with a non-null description, an update supplying
`description = null` clears it, while an update omitting the field
entirely keeps the prior value — supplied-as-null and not-supplied are
distinguished. -/
theorem C5_description_null_vs_absent (db : DB) (id : Nat) (t : Task)
    (d : String) (now : Nat)
    (hget : get_task db id = .ok t) (_hd : t.description = some d) :
    (update_task db id ⟨none, some none, none⟩ now).1 =
      .ok { t with description := none, updated_at := now } ∧
    (update_task db id ⟨none, none, none⟩ now).1 =
      .ok { t with updated_at := now } := by
  unfold update_task
  rw [hget]
  constructor <;> simp

/-- C5 witness on a one-record store whose record has description "D". -/
theorem C5_description_null_vs_absent_witness :
    (update_task ⟨[⟨0, "T", some "D", false, 0, 0⟩], 1⟩ 0 ⟨none, some none, none⟩ 3).1 =
      .ok ⟨0, "T", none, false, 0, 3⟩ ∧
    (update_task ⟨[⟨0, "T", some "D", false, 0, 0⟩], 1⟩ 0 ⟨none, none, none⟩ 3).1 =
      .ok ⟨0, "T", some "D", false, 0, 3⟩ :=
  C5_description_null_vs_absent ⟨[⟨0, "T", some "D", false, 0, 0⟩], 1⟩ 0
    ⟨0, "T", some "D", false, 0, 0⟩ "D" 3 (by decide) (by decide)

/-- C10: the create schema reads only `title` and `description` — a
payload's `is_completed`, `id` and timestamp keys are ignored — and the
created record always has `is_completed = false`, a server-generated id
and server-set timestamps. -/
theorem C10_create_ignores_client_fields (p : CreatePayload) (db : DB)
    (now_created now_updated : Nat) (data : TaskCreate)
    (_h : parse_TaskCreate p = .ok data) :
    parse_TaskCreate p = parse_TaskCreate ⟨p.title, p.description, none, none, none, none⟩ ∧
    (create_task db data now_created now_updated).1.is_completed = false ∧
    (create_task db data now_created now_updated).1.id = db.nextId ∧
    (create_task db data now_created now_updated).1.created_at = now_created ∧
    (create_task db data now_created now_updated).1.updated_at = now_updated :=
  ⟨rfl, rfl, rfl, rfl, rfl⟩

/-- C10 witness: a payload that tries to set `is_completed`, `id` and
timestamps parses the same as one without them, and the created record
has server-chosen values. -/
theorem C10_create_ignores_client_fields_witness :
    parse_TaskCreate ⟨some "T", none, some true, some 9, some 9, some 9⟩ =
      parse_TaskCreate ⟨some "T", none, none, none, none, none⟩ ∧
    (create_task DB.empty ⟨"T", none⟩ 2 3).1.is_completed = false ∧
    (create_task DB.empty ⟨"T", none⟩ 2 3).1.id = 0 ∧
    (create_task DB.empty ⟨"T", none⟩ 2 3).1.created_at = 2 ∧
    (create_task DB.empty ⟨"T", none⟩ 2 3).1.updated_at = 3 :=
  C10_create_ignores_client_fields ⟨some "T", none, some true, some 9, some 9, some 9⟩
    DB.empty 2 3 ⟨"T", none⟩ (by decide)

/-- C3: in every store reachable by operations whose inputs passed the
validation layer, every persisted record's title is a non-empty,
non-whitespace-only string.  An update supplying `title = null` passes
validation but the commit fails on the NOT NULL column and leaves the
store unchanged, so no persisted title is ever null, empty or blank. -/
theorem C3_persisted_titles_nonBlank (db : DB) (h : Reachable db) :
    ∀ t ∈ db.tasks, nonBlank t.title := by
  induction h with
  | init => intro t ht; simp [DB.empty] at ht
  | create db title desc data tc tu hr hv ih =>
    intro t ht
    simp only [create_task, List.mem_append, List.mem_singleton] at ht
    cases ht with
    | inl hl => exact ih t hl
    | inr hr' =>
      subst hr'
      exact (TaskCreate.validate_ok hv).2.2
  | update db id tit des comp u now hr hv ih =>
    intro t ht
    unfold update_task at ht
    cases hg : get_task db id with
    | error e => rw [hg] at ht; exact ih t ht
    | ok task =>
      rw [hg] at ht
      have htask := ih task (get_task_ok hg).1
      have hvt := TaskUpdate.validate_ok_title hv
      rcases u with ⟨ut, ud, uc⟩
      rcases ut with _ | (_ | v) <;> rcases uc with _ | (_ | b) <;>
        simp only [] at ht <;>
        first
          | exact ih t ht
          | (rw [List.mem_map] at ht
             obtain ⟨x, hx, hfx⟩ := ht
             by_cases hxi : (x.id == id) = true
             · rw [if_pos hxi] at hfx
               subst hfx
               first
                 | exact htask
                 | exact hvt _ rfl
             · rw [if_neg hxi] at hfx
               subst hfx
               exact ih x hx)
  | delete db id hr ih =>
    intro t ht
    unfold delete_task at ht
    cases hg : get_task db id with
    | error e => rw [hg] at ht; exact ih t ht
    | ok task =>
      rw [hg] at ht
      exact ih t (List.mem_of_mem_filter ht)

/-- C3 witness: the store reached by one validated create holds only
non-blank titles. -/
theorem C3_persisted_titles_nonBlank_witness :
    nonBlank (Task.title ⟨0, "T", none, false, 0, 0⟩) :=
  C3_persisted_titles_nonBlank (create_task DB.empty ⟨"T", none⟩ 0 0).2
    (Reachable.create DB.empty "T" none ⟨"T", none⟩ 0 0 Reachable.init (by decide))
    ⟨0, "T", none, false, 0, 0⟩ (by decide)

end TaskAPI
